import Mathlib

/-!
Verification development for the LXMFMonero repository.

This file gives a shallow embedding of the parts of the code that the
claims concern:

* `src/lxmfmonero/messages.py` — the JSON message codec (`asdict`/`to_json`
  and `parse_message` with its per-class `from_dict` methods);
* `src/lxmfmonero/wallet_rpc.py` — `WalletRPCClient.call` and the
  convenience wrappers that build RPC calls;
* `src/lxmfmonero/hub.py` — the hub request handlers;
* `src/lxmfmonero/client.py` — `_send_request` (pending-slot lifecycle)
  and `send_transaction` (the 6-step workflow);
* `src/reticulumxmr/hub_cold_signing.py` — the cold-signing session
  handlers and the operator→wallet mapping;
* `src/lxmfmonero/tui.py` — the send-form amount validation.

Python values that cross JSON boundaries are modelled by the inductive
`Jv` below (strings, ints, floats, booleans, null, arrays, objects).
Python floats are modelled as exact rationals (`Rat`); this abstraction is
noted wherever it matters.  Side-effecting collaborators (the wallet-rpc
daemon, the LXMF transport, the system clock, uuid generation) are
passed in as explicit parameters or oracle functions, and every wallet-rpc
call a handler issues is recorded in an explicit trace so that theorems
can speak about which calls were made.
-/

/-- JSON-like value, mirroring what Python's `json.loads` produces:
strings, ints, floats, booleans, null, lists and dicts.  Python
distinguishes int and float in JSON round-trips, so both are kept. -/
inductive Jv where
  | s (v : String)
  | i (v : Int)
  | f (v : Rat)
  | b (v : Bool)
  | nul
  | arr (vs : List Jv)
  | obj (kvs : List (String × Jv))

/-- A JSON object: an association list of string keys to values, as
produced by `json.loads` of a serialized Python dict. -/
abbrev JObj := List (String × Jv)

/-- Dict lookup, mirroring Python's `dict.get(k)` returning `None` when
the key is missing. -/
def jGet (d : JObj) (k : String) : Option Jv :=
  match d with
  | [] => none
  | (k', v) :: rest => if k' = k then some v else jGet rest k

/-- Python's `k in d` membership test. -/
def jHasKey (d : JObj) (k : String) : Bool :=
  (jGet d k).isSome

/-- Read a string value; mirrors `data.get(k, dflt)` where the stored
value (when present) is a JSON string. -/
def jGetSOr (d : JObj) (k : String) (dflt : String) : String :=
  match jGet d k with
  | some (.s v) => v
  | _ => dflt

/-- Read a string value or `none`; mirrors `data.get(k)` for fields that
are either a string or absent/null. -/
def jGetSOpt (d : JObj) (k : String) : Option String :=
  match jGet d k with
  | some (.s v) => some v
  | _ => none

/-- Read a float value with default; mirrors `data.get(k, dflt)` for
float-typed fields. -/
def jGetFOr (d : JObj) (k : String) (dflt : Rat) : Rat :=
  match jGet d k with
  | some (.f v) => v
  | _ => dflt

/-- Read an int value with default; mirrors `data.get(k, dflt)` for
int-typed fields. -/
def jGetIOr (d : JObj) (k : String) (dflt : Int) : Int :=
  match jGet d k with
  | some (.i v) => v
  | _ => dflt

/-- Read a bool value with default; mirrors `data.get(k, dflt)` for
bool-typed fields. -/
def jGetBOr (d : JObj) (k : String) (dflt : Bool) : Bool :=
  match jGet d k with
  | some (.b v) => v
  | _ => dflt

/-- Python truthiness of an optional string: `None` and the empty string
are falsy (`if not wallet_name: ...`). -/
def strTruthy : Option String → Bool
  | none => false
  | some s => s ≠ ""

/-!
## lxmfmonero.messages — message dataclasses and the JSON codec

Each Python message dataclass becomes a Lean structure.  The `type`
discriminator is not stored as a field: every `__init__` in the source
hard-codes it to the class constant, so it is a function of the
constructor (`Msg.typeOf` below), exactly as in the code.

`to_json` is `json.dumps(asdict(self))` and `parse_message` starts with
`json.loads`; since `json.loads(json.dumps(d)) == d` for the dicts
produced here, the codec is modelled at the object (dict) level:
`Msg.asdict` produces the `JObj` that `asdict` + dump/load yields, and
`parseMessage` consumes a `JObj`.

Two effects are made explicit parameters: `fresh` stands for
`generate_request_id()` (a fresh uuid4 string) and `now` for
`current_timestamp()` (`time.time()`).
-/

/-- Entry of `signed_key_images`: the wire shape is a list of
`(key_image, signature)` records (spec §6); Python keeps them as raw
dicts, modelled here as this record. -/
structure KeyImage where
  key_image : String
  signature : String
  deriving DecidableEq, Repr

/-- Encoding of one key image back to its JSON object. -/
def KeyImage.asdict (k : KeyImage) : Jv :=
  .obj [("key_image", .s k.key_image), ("signature", .s k.signature)]

/-- Decoding of one key image from its JSON value. -/
def KeyImage.ofJv : Jv → KeyImage
  | .obj kvs => { key_image := jGetSOr kvs "key_image" ""
                  signature := jGetSOr kvs "signature" "" }
  | _ => { key_image := "", signature := "" }

/-- BalanceRequest dataclass (`messages.py`). -/
structure BalanceRequest where
  request_id : String
  timestamp : Rat
  operator_id : String
  deriving DecidableEq, Repr

/-- ExportOutputsRequest dataclass. -/
structure ExportOutputsRequest where
  request_id : String
  timestamp : Rat
  operator_id : String
  all_outputs : Bool
  deriving DecidableEq, Repr

/-- CreateTxRequest dataclass. -/
structure CreateTxRequest where
  request_id : String
  timestamp : Rat
  operator_id : String
  destination : String
  amount : Rat
  priority : Int
  deriving DecidableEq, Repr

/-- SubmitTxRequest dataclass. -/
structure SubmitTxRequest where
  request_id : String
  timestamp : Rat
  operator_id : String
  signed_txset : String
  deriving DecidableEq, Repr

/-- ImportKeyImagesRequest dataclass. -/
structure ImportKeyImagesRequest where
  request_id : String
  timestamp : Rat
  operator_id : String
  signed_key_images : List KeyImage
  offset : Int
  deriving DecidableEq, Repr

/-- BalanceResponse dataclass. -/
structure BalanceResponse where
  request_id : String
  timestamp : Rat
  success : Bool
  balance : Rat
  unlocked_balance : Rat
  block_height : Int
  error : Option String
  deriving DecidableEq, Repr

/-- ExportOutputsResponse dataclass. -/
structure ExportOutputsResponse where
  request_id : String
  timestamp : Rat
  success : Bool
  outputs_data_hex : String
  error : Option String
  deriving DecidableEq, Repr

/-- CreateTxResponse dataclass. -/
structure CreateTxResponse where
  request_id : String
  timestamp : Rat
  success : Bool
  unsigned_txset : String
  fee : Rat
  amount : Rat
  error : Option String
  deriving DecidableEq, Repr

/-- SubmitTxResponse dataclass. -/
structure SubmitTxResponse where
  request_id : String
  timestamp : Rat
  success : Bool
  tx_hash : String
  error : Option String
  deriving DecidableEq, Repr

/-- ImportKeyImagesResponse dataclass. -/
structure ImportKeyImagesResponse where
  request_id : String
  timestamp : Rat
  success : Bool
  height : Int
  spent : Int
  unspent : Int
  error : Option String
  deriving DecidableEq, Repr

/-- ErrorResponse dataclass. -/
structure ErrorResponse where
  request_id : String
  timestamp : Rat
  error : String
  deriving DecidableEq, Repr

/-- Closed union of the eleven known message kinds of `MESSAGE_CLASSES`. -/
inductive Msg where
  | balanceRequest (m : BalanceRequest)
  | exportOutputsRequest (m : ExportOutputsRequest)
  | createTxRequest (m : CreateTxRequest)
  | submitTxRequest (m : SubmitTxRequest)
  | importKeyImagesRequest (m : ImportKeyImagesRequest)
  | balanceResponse (m : BalanceResponse)
  | exportOutputsResponse (m : ExportOutputsResponse)
  | createTxResponse (m : CreateTxResponse)
  | submitTxResponse (m : SubmitTxResponse)
  | importKeyImagesResponse (m : ImportKeyImagesResponse)
  | errorResponse (m : ErrorResponse)
  deriving DecidableEq, Repr

/-- Type discriminator, as hard-coded by each `__init__` from
`MessageType`. -/
def Msg.typeOf : Msg → String
  | .balanceRequest _ => "balance_request"
  | .exportOutputsRequest _ => "export_outputs"
  | .createTxRequest _ => "create_tx"
  | .submitTxRequest _ => "submit_tx"
  | .importKeyImagesRequest _ => "import_key_images"
  | .balanceResponse _ => "balance_response"
  | .exportOutputsResponse _ => "export_outputs_response"
  | .createTxResponse _ => "create_tx_response"
  | .submitTxResponse _ => "submit_tx_response"
  | .importKeyImagesResponse _ => "import_key_images_response"
  | .errorResponse _ => "error"

/-- The correlation id carried by any message. -/
def Msg.requestId : Msg → String
  | .balanceRequest m => m.request_id
  | .exportOutputsRequest m => m.request_id
  | .createTxRequest m => m.request_id
  | .submitTxRequest m => m.request_id
  | .importKeyImagesRequest m => m.request_id
  | .balanceResponse m => m.request_id
  | .exportOutputsResponse m => m.request_id
  | .createTxResponse m => m.request_id
  | .submitTxResponse m => m.request_id
  | .importKeyImagesResponse m => m.request_id
  | .errorResponse m => m.request_id

/-- Encoding of an optional error string; `None` serializes to JSON
null. -/
def errJv : Option String → Jv
  | none => .nul
  | some e => .s e

/-- Dict produced by `asdict(self)` (dataclass field order: base fields
`type`, `request_id`, `timestamp`, then subclass fields in declaration
order), which `to_json`/`json.loads` reproduces exactly. -/
def Msg.asdict : Msg → JObj
  | .balanceRequest m =>
      [("type", .s "balance_request"), ("request_id", .s m.request_id),
       ("timestamp", .f m.timestamp), ("operator_id", .s m.operator_id)]
  | .exportOutputsRequest m =>
      [("type", .s "export_outputs"), ("request_id", .s m.request_id),
       ("timestamp", .f m.timestamp), ("operator_id", .s m.operator_id),
       ("all_outputs", .b m.all_outputs)]
  | .createTxRequest m =>
      [("type", .s "create_tx"), ("request_id", .s m.request_id),
       ("timestamp", .f m.timestamp), ("operator_id", .s m.operator_id),
       ("destination", .s m.destination), ("amount", .f m.amount),
       ("priority", .i m.priority)]
  | .submitTxRequest m =>
      [("type", .s "submit_tx"), ("request_id", .s m.request_id),
       ("timestamp", .f m.timestamp), ("operator_id", .s m.operator_id),
       ("signed_txset", .s m.signed_txset)]
  | .importKeyImagesRequest m =>
      [("type", .s "import_key_images"), ("request_id", .s m.request_id),
       ("timestamp", .f m.timestamp), ("operator_id", .s m.operator_id),
       ("signed_key_images", .arr (m.signed_key_images.map KeyImage.asdict)),
       ("offset", .i m.offset)]
  | .balanceResponse m =>
      [("type", .s "balance_response"), ("request_id", .s m.request_id),
       ("timestamp", .f m.timestamp), ("success", .b m.success),
       ("balance", .f m.balance), ("unlocked_balance", .f m.unlocked_balance),
       ("block_height", .i m.block_height), ("error", errJv m.error)]
  | .exportOutputsResponse m =>
      [("type", .s "export_outputs_response"), ("request_id", .s m.request_id),
       ("timestamp", .f m.timestamp), ("success", .b m.success),
       ("outputs_data_hex", .s m.outputs_data_hex), ("error", errJv m.error)]
  | .createTxResponse m =>
      [("type", .s "create_tx_response"), ("request_id", .s m.request_id),
       ("timestamp", .f m.timestamp), ("success", .b m.success),
       ("unsigned_txset", .s m.unsigned_txset), ("fee", .f m.fee),
       ("amount", .f m.amount), ("error", errJv m.error)]
  | .submitTxResponse m =>
      [("type", .s "submit_tx_response"), ("request_id", .s m.request_id),
       ("timestamp", .f m.timestamp), ("success", .b m.success),
       ("tx_hash", .s m.tx_hash), ("error", errJv m.error)]
  | .importKeyImagesResponse m =>
      [("type", .s "import_key_images_response"), ("request_id", .s m.request_id),
       ("timestamp", .f m.timestamp), ("success", .b m.success),
       ("height", .i m.height), ("spent", .i m.spent),
       ("unspent", .i m.unspent), ("error", errJv m.error)]
  | .errorResponse m =>
      [("type", .s "error"), ("request_id", .s m.request_id),
       ("timestamp", .f m.timestamp), ("error", .s m.error)]

/-- Request-side id handling: `request_id or generate_request_id()` —
`None` and the empty string are falsy, so both yield a fresh id. -/
def ridOr (rid : Option String) (fresh : String) : String :=
  match rid with
  | some s => if s = "" then fresh else s
  | none => fresh

/-- BalanceRequest.from_dict. -/
def BalanceRequest.fromDict (fresh : String) (now : Rat) (d : JObj) : BalanceRequest :=
  { request_id := ridOr (jGetSOpt d "request_id") fresh
    timestamp := jGetFOr d "timestamp" now
    operator_id := jGetSOr d "operator_id" "" }

/-- ExportOutputsRequest.from_dict. -/
def ExportOutputsRequest.fromDict (fresh : String) (now : Rat) (d : JObj) : ExportOutputsRequest :=
  { request_id := ridOr (jGetSOpt d "request_id") fresh
    timestamp := jGetFOr d "timestamp" now
    operator_id := jGetSOr d "operator_id" ""
    all_outputs := jGetBOr d "all_outputs" true }

/-- CreateTxRequest.from_dict. -/
def CreateTxRequest.fromDict (fresh : String) (now : Rat) (d : JObj) : CreateTxRequest :=
  { request_id := ridOr (jGetSOpt d "request_id") fresh
    timestamp := jGetFOr d "timestamp" now
    operator_id := jGetSOr d "operator_id" ""
    destination := jGetSOr d "destination" ""
    amount := jGetFOr d "amount" 0
    priority := jGetIOr d "priority" 1 }

/-- SubmitTxRequest.from_dict. -/
def SubmitTxRequest.fromDict (fresh : String) (now : Rat) (d : JObj) : SubmitTxRequest :=
  { request_id := ridOr (jGetSOpt d "request_id") fresh
    timestamp := jGetFOr d "timestamp" now
    operator_id := jGetSOr d "operator_id" ""
    signed_txset := jGetSOr d "signed_txset" "" }

/-- ImportKeyImagesRequest.from_dict. -/
def ImportKeyImagesRequest.fromDict (fresh : String) (now : Rat) (d : JObj) : ImportKeyImagesRequest :=
  { request_id := ridOr (jGetSOpt d "request_id") fresh
    timestamp := jGetFOr d "timestamp" now
    operator_id := jGetSOr d "operator_id" ""
    signed_key_images :=
      (match jGet d "signed_key_images" with
       | some (.arr vs) => vs.map KeyImage.ofJv
       | _ => [])
    offset := jGetIOr d "offset" 0 }

/-- BalanceResponse.from_dict; the constructor stamps a fresh
`current_timestamp()`, so the wire timestamp is dropped. -/
def BalanceResponse.fromDict (now : Rat) (d : JObj) : BalanceResponse :=
  { request_id := jGetSOr d "request_id" ""
    timestamp := now
    success := jGetBOr d "success" false
    balance := jGetFOr d "balance" 0
    unlocked_balance := jGetFOr d "unlocked_balance" 0
    block_height := jGetIOr d "block_height" 0
    error := jGetSOpt d "error" }

/-- ExportOutputsResponse.from_dict. -/
def ExportOutputsResponse.fromDict (now : Rat) (d : JObj) : ExportOutputsResponse :=
  { request_id := jGetSOr d "request_id" ""
    timestamp := now
    success := jGetBOr d "success" false
    outputs_data_hex := jGetSOr d "outputs_data_hex" ""
    error := jGetSOpt d "error" }

/-- CreateTxResponse.from_dict. -/
def CreateTxResponse.fromDict (now : Rat) (d : JObj) : CreateTxResponse :=
  { request_id := jGetSOr d "request_id" ""
    timestamp := now
    success := jGetBOr d "success" false
    unsigned_txset := jGetSOr d "unsigned_txset" ""
    fee := jGetFOr d "fee" 0
    amount := jGetFOr d "amount" 0
    error := jGetSOpt d "error" }

/-- SubmitTxResponse.from_dict. -/
def SubmitTxResponse.fromDict (now : Rat) (d : JObj) : SubmitTxResponse :=
  { request_id := jGetSOr d "request_id" ""
    timestamp := now
    success := jGetBOr d "success" false
    tx_hash := jGetSOr d "tx_hash" ""
    error := jGetSOpt d "error" }

/-- ImportKeyImagesResponse.from_dict. -/
def ImportKeyImagesResponse.fromDict (now : Rat) (d : JObj) : ImportKeyImagesResponse :=
  { request_id := jGetSOr d "request_id" ""
    timestamp := now
    success := jGetBOr d "success" false
    height := jGetIOr d "height" 0
    spent := jGetIOr d "spent" 0
    unspent := jGetIOr d "unspent" 0
    error := jGetSOpt d "error" }

/-- ErrorResponse.from_dict. -/
def ErrorResponse.fromDict (now : Rat) (d : JObj) : ErrorResponse :=
  { request_id := jGetSOr d "request_id" ""
    timestamp := now
    error := jGetSOr d "error" "Unknown error" }

/-- Model of `parse_message` after `json.loads`: reads the `type`
discriminator and dispatches through `MESSAGE_CLASSES`; an unknown or
missing type raises `ValueError`, modelled as `none`. -/
def parseMessage (fresh : String) (now : Rat) (d : JObj) : Option Msg :=
  match jGetSOpt d "type" with
  | none => none
  | some t =>
    if t = "balance_request" then some (.balanceRequest (BalanceRequest.fromDict fresh now d))
    else if t = "export_outputs" then some (.exportOutputsRequest (ExportOutputsRequest.fromDict fresh now d))
    else if t = "create_tx" then some (.createTxRequest (CreateTxRequest.fromDict fresh now d))
    else if t = "submit_tx" then some (.submitTxRequest (SubmitTxRequest.fromDict fresh now d))
    else if t = "import_key_images" then some (.importKeyImagesRequest (ImportKeyImagesRequest.fromDict fresh now d))
    else if t = "balance_response" then some (.balanceResponse (BalanceResponse.fromDict now d))
    else if t = "export_outputs_response" then some (.exportOutputsResponse (ExportOutputsResponse.fromDict now d))
    else if t = "create_tx_response" then some (.createTxResponse (CreateTxResponse.fromDict now d))
    else if t = "submit_tx_response" then some (.submitTxResponse (SubmitTxResponse.fromDict now d))
    else if t = "import_key_images_response" then some (.importKeyImagesResponse (ImportKeyImagesResponse.fromDict now d))
    else if t = "error" then some (.errorResponse (ErrorResponse.fromDict now d))
    else none

/-- Every constructible message has a non-empty `request_id`: request
constructors replace a falsy id by a fresh uuid4, and responses receive
the id of an already-constructed request.  This predicate records that
precondition (trivial for responses, whose `from_dict` copies the id
verbatim). -/
def Msg.ridProvided : Msg → Bool
  | .balanceRequest m => m.request_id ≠ ""
  | .exportOutputsRequest m => m.request_id ≠ ""
  | .createTxRequest m => m.request_id ≠ ""
  | .submitTxRequest m => m.request_id ≠ ""
  | .importKeyImagesRequest m => m.request_id ≠ ""
  | _ => true

/-- Result of re-parsing an encoded message: identical except that
response constructors get a fresh decode-time timestamp (their
`from_dict` goes through `__init__`, which stamps
`current_timestamp()`), while request `from_dict`s copy the wire
timestamp. -/
def Msg.reparsed (m : Msg) (now : Rat) : Msg :=
  match m with
  | .balanceRequest x => .balanceRequest x
  | .exportOutputsRequest x => .exportOutputsRequest x
  | .createTxRequest x => .createTxRequest x
  | .submitTxRequest x => .submitTxRequest x
  | .importKeyImagesRequest x => .importKeyImagesRequest x
  | .balanceResponse x => .balanceResponse { x with timestamp := now }
  | .exportOutputsResponse x => .exportOutputsResponse { x with timestamp := now }
  | .createTxResponse x => .createTxResponse { x with timestamp := now }
  | .submitTxResponse x => .submitTxResponse { x with timestamp := now }
  | .importKeyImagesResponse x => .importKeyImagesResponse { x with timestamp := now }
  | .errorResponse x => .errorResponse { x with timestamp := now }

/-- Round-trip of one key image. -/
theorem keyImage_roundtrip (k : KeyImage) : KeyImage.ofJv (KeyImage.asdict k) = k := by
  cases k
  simp [KeyImage.asdict, KeyImage.ofJv, jGetSOr, jGet]

/-- Round-trip of a list of key images. -/
theorem keyImage_map_roundtrip (l : List KeyImage) :
    l.map (KeyImage.ofJv ∘ KeyImage.asdict) = l := by
  induction l with
  | nil => rfl
  | cons a t ih => simp [keyImage_roundtrip, ih]

/-- C3: for every message of a known kind, `parse_message(m.to_json())`
succeeds and returns a message of the same kind with the same
`request_id` and the same kind-specific payload fields (everything except
the decode-time timestamp of responses is reproduced exactly). -/
theorem parse_roundtrip (m : Msg) (fresh : String) (now : Rat)
    (h : m.ridProvided = true) :
    parseMessage fresh now m.asdict = some (m.reparsed now) := by
  cases m with
  | balanceRequest x =>
      simp [Msg.ridProvided] at h
      simp [Msg.asdict, Msg.reparsed, parseMessage, BalanceRequest.fromDict,
        ridOr, jGetSOpt, jGetSOr, jGetFOr, jGetBOr, jGetIOr, jGet, h]
  | exportOutputsRequest x =>
      simp [Msg.ridProvided] at h
      simp [Msg.asdict, Msg.reparsed, parseMessage, ExportOutputsRequest.fromDict,
        ridOr, jGetSOpt, jGetSOr, jGetFOr, jGetBOr, jGetIOr, jGet, h]
  | createTxRequest x =>
      simp [Msg.ridProvided] at h
      simp [Msg.asdict, Msg.reparsed, parseMessage, CreateTxRequest.fromDict,
        ridOr, jGetSOpt, jGetSOr, jGetFOr, jGetBOr, jGetIOr, jGet, h]
  | submitTxRequest x =>
      simp [Msg.ridProvided] at h
      simp [Msg.asdict, Msg.reparsed, parseMessage, SubmitTxRequest.fromDict,
        ridOr, jGetSOpt, jGetSOr, jGetFOr, jGetBOr, jGetIOr, jGet, h]
  | importKeyImagesRequest x =>
      simp [Msg.ridProvided] at h
      simp [Msg.asdict, Msg.reparsed, parseMessage, ImportKeyImagesRequest.fromDict,
        ridOr, jGetSOpt, jGetSOr, jGetFOr, jGetBOr, jGetIOr, jGet, h,
        List.map_map, keyImage_map_roundtrip]
  | balanceResponse x =>
      cases hx : x.error <;>
      simp [Msg.asdict, Msg.reparsed, parseMessage, BalanceResponse.fromDict, errJv,
        jGetSOpt, jGetSOr, jGetFOr, jGetBOr, jGetIOr, jGet, hx]
  | exportOutputsResponse x =>
      cases hx : x.error <;>
      simp [Msg.asdict, Msg.reparsed, parseMessage, ExportOutputsResponse.fromDict, errJv,
        jGetSOpt, jGetSOr, jGetFOr, jGetBOr, jGetIOr, jGet, hx]
  | createTxResponse x =>
      cases hx : x.error <;>
      simp [Msg.asdict, Msg.reparsed, parseMessage, CreateTxResponse.fromDict, errJv,
        jGetSOpt, jGetSOr, jGetFOr, jGetBOr, jGetIOr, jGet, hx]
  | submitTxResponse x =>
      cases hx : x.error <;>
      simp [Msg.asdict, Msg.reparsed, parseMessage, SubmitTxResponse.fromDict, errJv,
        jGetSOpt, jGetSOr, jGetFOr, jGetBOr, jGetIOr, jGet, hx]
  | importKeyImagesResponse x =>
      cases hx : x.error <;>
      simp [Msg.asdict, Msg.reparsed, parseMessage, ImportKeyImagesResponse.fromDict, errJv,
        jGetSOpt, jGetSOr, jGetFOr, jGetBOr, jGetIOr, jGet, hx]
  | errorResponse x =>
      simp [Msg.asdict, Msg.reparsed, parseMessage, ErrorResponse.fromDict,
        jGetSOpt, jGetSOr, jGetFOr, jGetBOr, jGetIOr, jGet]

/-- Concrete CreateTxRequest used to witness the round-trip theorem. -/
def c3SampleMsg : Msg :=
  .createTxRequest
    { request_id := "req-1", timestamp := 17, operator_id := "alice",
      destination := "44AFFq5kSiGBoZ4N", amount := 1/1000, priority := 1 }

/-- Witness for C3: the round-trip theorem applied at a concrete
message. -/
theorem parse_roundtrip_witness :
    c3SampleMsg.ridProvided = true ∧
      parseMessage "fresh-uuid" 99 c3SampleMsg.asdict = some (c3SampleMsg.reparsed 99) :=
  ⟨by decide, parse_roundtrip c3SampleMsg "fresh-uuid" 99 (by decide)⟩

/-!
## lxmfmonero.wallet_rpc — `WalletRPCClient.call`

The transport step (`session.post` followed by `response.json()`) is
modelled by an outcome: either a parsed JSON body, or one of the three
exception classes the code catches.  `call` is then a total function of
that outcome — totality is the model of "never propagates an exception".
The identical `WalletRPCClient.call` in
`src/reticulumxmr/hub_cold_signing.py` is covered by the same model (it
differs only in the hard-coded 120s timeout value).
-/

/-- Outcome of `session.post(...)` + `response.json()` as observed by
the `try` block of `WalletRPCClient.call`. -/
inductive HttpOutcome where
  | ok (body : JObj)
  | timeout
  | connError (e : String)
  | exc (e : String)

/-- Model of `WalletRPCClient.call`: the dict returned in each branch of
the source. -/
def rpcCallResult (o : HttpOutcome) : JObj :=
  match o with
  | .ok body =>
      if jHasKey body "error" then [("error", (jGet body "error").getD .nul)]
      else [("result", (jGet body "result").getD (.obj []))]
  | .timeout => [("error", .obj [("code", .i (-1)), ("message", .s "RPC timeout")])]
  | .connError e =>
      [("error", .obj [("code", .i (-2)), ("message", .s ("Connection error: " ++ e))])]
  | .exc e => [("error", .obj [("code", .i (-3)), ("message", .s e)])]

/-- C10: `WalletRPCClient.call` always returns (it is a total function
of the transport outcome), the returned dict holds exactly one of the
keys "result"/"error", and the three exception classes map to error
codes -1 ("RPC timeout"), -2 ("Connection error: ..."), -3. -/
theorem walletRpc_call_shape (o : HttpOutcome) (e : String) :
    (jHasKey (rpcCallResult o) "error" = !jHasKey (rpcCallResult o) "result") ∧
    ((rpcCallResult o).length = 1) ∧
    (rpcCallResult .timeout
      = [("error", .obj [("code", .i (-1)), ("message", .s "RPC timeout")])]) ∧
    (rpcCallResult (.connError e)
      = [("error", .obj [("code", .i (-2)), ("message", .s ("Connection error: " ++ e))])]) ∧
    (rpcCallResult (.exc e)
      = [("error", .obj [("code", .i (-3)), ("message", .s e)])]) := by
  refine ⟨?_, ?_, rfl, rfl, rfl⟩ <;>
    cases o with
    | ok body =>
        simp only [rpcCallResult, jHasKey]
        by_cases h : (jGet body "error").isSome <;> simp [jGet, h]
    | timeout => simp [rpcCallResult, jHasKey, jGet]
    | connError e2 => simp [rpcCallResult, jHasKey, jGet]
    | exc e2 => simp [rpcCallResult, jHasKey, jGet]

/-!
## Wallet-rpc call records and result helpers for the hub handlers

Handlers receive an oracle `env : RpcEnv` standing for the daemon: it
maps a method name and params dict to the dict `WalletRPCClient.call`
returns (the `result`-or-`error` shape proved above).  Every call a
handler makes is also recorded in a trace of `RpcCall`s so theorems can
quantify over the calls issued.
-/

/-- One wallet-rpc invocation: method name plus the params dict. -/
structure RpcCall where
  method : String
  params : JObj

/-- Oracle for the wallet-rpc daemon as seen through
`WalletRPCClient.call`. -/
abbrev RpcEnv := String → JObj → JObj

/-- Python `"error" in result` / `result["error"]`. -/
def resErr (r : JObj) : Option Jv := jGet r "error"

/-- Python `result.get("result", {})`. -/
def resVal (r : JObj) : Jv := (jGet r "result").getD (.obj [])

/-- String field of a result value: `tx_data.get(k, dflt)`.  If the
value is not a dict Python would raise (caught upstream); the model
returns the default in that unreachable corner. -/
def jvGetSOr (v : Jv) (k : String) (dflt : String) : String :=
  match v with
  | .obj kvs => jGetSOr kvs k dflt
  | _ => dflt

/-- Int field of a result value: `data.get(k, dflt)` for atomic
amounts and heights. -/
def jvGetIOr (v : Jv) (k : String) (dflt : Int) : Int :=
  match v with
  | .obj kvs => jGetIOr kvs k dflt
  | _ => dflt

/-- Model of `result["error"].get("message", str(result["error"]))`.
The `str(...)` fallback for an error without a string "message" field is
abstracted as a fixed placeholder; no claim depends on its exact text. -/
def errMessage (e : Jv) : String :=
  match e with
  | .obj kvs =>
      match jGet kvs "message" with
      | some (.s s) => s
      | _ => "unprintable error"
  | _ => "unprintable error"

/-- Python `int(x)`: truncation toward zero of a real value.  The float
multiplication `request.amount * 1e12` is modelled as exact rational
arithmetic here; the float-rounding question itself is claim C5's
subject and is not settled by this abstraction. -/
def pyInt (q : Rat) : Int :=
  if q < 0 then -(Int.floor (-q)) else Int.floor q

/-- Atomic-unit conversion used by both CreateTx handlers:
`int(amount * 1e12)`. -/
def amountAtomic (amount : Rat) : Int := pyInt (amount * (10 ^ 12 : Rat))

/-- Params dict built by `WalletRPCClient.transfer` (hub.py calls it
with `do_not_relay=True, get_tx_metadata=True`). -/
def transferParams (destinations : List Jv) (priority : Int)
    (do_not_relay : Bool) (get_tx_metadata : Bool) : JObj :=
  [("destinations", .arr destinations), ("priority", .i priority),
   ("do_not_relay", .b do_not_relay), ("get_tx_metadata", .b get_tx_metadata)]

/-- Model of `MoneroHub._handle_create_tx` (`src/lxmfmonero/hub.py`):
returns the response plus the trace of wallet-rpc calls issued. -/
def lxmfHandleCreateTx (now : Rat) (req : CreateTxRequest) (env : RpcEnv) :
    CreateTxResponse × List RpcCall :=
  let params := transferParams
    [.obj [("amount", .i (amountAtomic req.amount)), ("address", .s req.destination)]]
    req.priority true true
  let result := env "transfer" params
  let resp : CreateTxResponse :=
    match resErr result with
    | some e =>
        { request_id := req.request_id, timestamp := now, success := false,
          unsigned_txset := "", fee := 0, amount := 0, error := some (errMessage e) }
    | none =>
        let txData := resVal result
        let uts0 := jvGetSOr txData "unsigned_txset" ""
        let uts := if uts0 = "" then jvGetSOr txData "tx_metadata" "" else uts0
        let feeAtomic := jvGetIOr txData "fee" 0
        { request_id := req.request_id, timestamp := now, success := true,
          unsigned_txset := uts, fee := (feeAtomic : Rat) / (10 ^ 12 : Rat),
          amount := req.amount, error := none }
  (resp, [⟨"transfer", params⟩])

/-- First element of `tx_hash_list` if the list is non-empty, else ""
(`tx_hash_list[0] if tx_hash_list else ""`; a non-string first element
is abstracted to ""). -/
def txHashListHead (v : Jv) : String :=
  match v with
  | .obj kvs =>
      match jGet kvs "tx_hash_list" with
      | some (.arr (.s h :: _)) => h
      | _ => ""
  | _ => ""

/-- Model of `MoneroHub._handle_submit_tx` (`src/lxmfmonero/hub.py`).
Note: this handler calls `submit_transfer` only — there is no
`relay_tx` fallback in this file. -/
def lxmfHandleSubmitTx (now : Rat) (req : SubmitTxRequest) (env : RpcEnv) :
    SubmitTxResponse × List RpcCall :=
  let params : JObj := [("tx_data_hex", .s req.signed_txset)]
  let result := env "submit_transfer" params
  let resp : SubmitTxResponse :=
    match resErr result with
    | none =>
        let h := txHashListHead (resVal result)
        if h ≠ "" then
          { request_id := req.request_id, timestamp := now, success := true,
            tx_hash := h, error := none }
        else
          { request_id := req.request_id, timestamp := now, success := false,
            tx_hash := "", error := some "Unknown error" }
    | some e =>
        { request_id := req.request_id, timestamp := now, success := false,
          tx_hash := "", error := some (errMessage e) }
  (resp, [⟨"submit_transfer", params⟩])

/-!
## reticulumxmr.hub_cold_signing — session state, mappings, handlers

Session state is `current_operator_id`/`current_wallet_name`.  The
durable operator→wallet table (`operator_wallets.json`) is modelled as an
association list threaded through the provisioning handler; file I/O is
abstracted to reading/writing that table.  Each handler takes an `RpcEnv`
oracle and returns its response, the updated session, and the trace of
wallet-rpc calls it issued.
-/

/-- Per-connection session state of `HubColdSigningSession`. -/
structure Session where
  current_operator_id : Option String
  current_wallet_name : Option String
  deriving DecidableEq, Repr

/-- One row of the durable `operator_wallets.json` table. -/
structure OpMapping where
  wallet_name : String
  address : String
  created : Rat
  deriving DecidableEq, Repr

/-- The durable operator→wallet table. -/
abbrev OperatorMap := List (String × OpMapping)

/-- Table lookup (Python `mappings.get(operator_id, {})`). -/
def mapLookup (m : OperatorMap) (k : String) : Option OpMapping :=
  match m with
  | [] => none
  | (k', v) :: rest => if k' = k then some v else mapLookup rest k

/-- Overwrite-or-insert (`mappings[operator_id] = {...}` then dump). -/
def setMapping (m : OperatorMap) (k : String) (v : OpMapping) : OperatorMap :=
  match m with
  | [] => [(k, v)]
  | (k', v') :: rest => if k' = k then (k, v) :: rest else (k', v') :: setMapping rest k v

/-- Model of `_get_wallet_for_operator`: the stored wallet name, or
`None` when the operator has no row. -/
def getWalletForOperator (m : OperatorMap) (op : String) : Option String :=
  (mapLookup m op).map OpMapping.wallet_name

/-- The condition `"error" not in result and result.get("result",
{}).get("address")` of the currently-open-wallet fallback. -/
def addrOk (r : JObj) : Bool :=
  (resErr r).isNone && !(jvGetSOr (resVal r) "address" "" == "")

/-- The `get_address` fallback branch of `_ensure_wallet_open`: when no
mapping exists, use whatever wallet is currently open (binding the
operator to wallet "default") if the daemon reports one. -/
def ensureGetAddressFallback (s : Session) (op : String) (env : RpcEnv) :
    Bool × Session × List RpcCall :=
  let r := env "get_address" []
  if addrOk r then
    (true, { current_operator_id := some op, current_wallet_name := some "default" },
     [⟨"get_address", []⟩])
  else
    (false, s, [⟨"get_address", []⟩])

/-- Model of `_ensure_wallet_open`: returns the boolean result, the
session after any rebinding, and the wallet-rpc calls made. -/
def ensureWalletOpen (s : Session) (maps : OperatorMap) (env : RpcEnv) (op : String) :
    Bool × Session × List RpcCall :=
  if s.current_operator_id = some op ∧ strTruthy s.current_wallet_name = true then
    (true, s, [])
  else
    match getWalletForOperator maps op with
    | none => ensureGetAddressFallback s op env
    | some w =>
      if w = "" then ensureGetAddressFallback s op env
      else
        let params : JObj := [("filename", .s w), ("password", .s "")]
        let r := env "open_wallet" params
        if (resErr r).isSome then (false, s, [⟨"open_wallet", params⟩])
        else (true, { current_operator_id := some op, current_wallet_name := some w },
              [⟨"open_wallet", params⟩])

/-- ProvisionWalletMessage (`view_key_protocol.py`): its only fields —
there is no spend-key field. -/
structure ProvisionWalletMessage where
  operator_id : String
  view_key : String
  wallet_address : String
  wallet_name : String
  restore_height : Int
  deriving DecidableEq, Repr

/-- Wire dict produced by `ProvisionWalletMessage.pack`. -/
def ProvisionWalletMessage.pack (m : ProvisionWalletMessage) (ts : Rat) : JObj :=
  [("operator_id", .s m.operator_id), ("view_key", .s m.view_key),
   ("wallet_address", .s m.wallet_address), ("wallet_name", .s m.wallet_name),
   ("restore_height", .i m.restore_height), ("ts", .f ts)]

/-- ProvisionAckMessage. -/
structure ProvisionAckMessage where
  success : Bool
  operator_id : String
  status : Option String
  error : Option String
  deriving DecidableEq, Repr

/-- BalanceRequestMessage. -/
structure BalanceRequestMessage where
  operator_id : String
  request_id : String
  deriving DecidableEq, Repr

/-- BalanceResponseMessage. -/
structure BalanceResponseMessage where
  success : Bool
  request_id : String
  balance : Rat
  unlocked_balance : Rat
  balance_atomic : Int
  block_height : Int
  blocks_to_unlock : Int
  error : Option String
  deriving DecidableEq, Repr

/-- CreateTransactionMessage. -/
structure CreateTransactionMessage where
  operator_id : String
  request_id : String
  destination : String
  amount : Rat
  priority : Int
  description : String
  deriving DecidableEq, Repr

/-- UnsignedTransactionMessage; `destinations` entries are
(address, amount) pairs. -/
structure UnsignedTransactionMessage where
  success : Bool
  request_id : String
  unsigned_tx : Option String
  tx_key : Option String
  fee : Rat
  total : Rat
  destinations : List (String × Rat)
  change : Rat
  error : Option String
  deriving DecidableEq, Repr

/-- SignedTransactionMessage. -/
structure SignedTransactionMessage where
  operator_id : String
  request_id : String
  signed_tx : String
  deriving DecidableEq, Repr

/-- TransactionResultMessage. -/
structure TransactionResultMessage where
  success : Bool
  request_id : String
  tx_hash : Option String
  tx_key : Option String
  fee : Rat
  status : String
  error : Option String
  deriving DecidableEq, Repr

/-- Params dict the provisioning handler passes to
`generate_from_keys` — note the absence of any "spendkey" entry. -/
def provisionParams (wname : String) (msg : ProvisionWalletMessage) : JObj :=
  [("filename", .s wname), ("address", .s msg.wallet_address),
   ("viewkey", .s msg.view_key), ("password", .s ""),
   ("restore_height", .i msg.restore_height), ("autosave_current", .b true)]

/-- Wallet name generated by `_handle_provision_wallet`
(`f"viewonly_{operator_id}_{int(time.time())}"`). -/
def provisionWalletName (op : String) (nowI : Int) : String :=
  "viewonly_" ++ op ++ "_" ++ toString nowI

/-- Model of `_handle_provision_wallet`: returns the ack, the session,
the updated durable table, and the calls issued.  `nowI` is
`int(time.time())` (wallet-name suffix), `now` is the `time.time()`
stored in the mapping row. -/
def csHandleProvisionWallet (s : Session) (maps : OperatorMap) (env : RpcEnv)
    (nowI : Int) (now : Rat) (msg : ProvisionWalletMessage) :
    ProvisionAckMessage × Session × OperatorMap × List RpcCall :=
  let wname := provisionWalletName msg.operator_id nowI
  let params := provisionParams wname msg
  let r := env "generate_from_keys" params
  match resErr r with
  | some e =>
      ({ success := false, operator_id := msg.operator_id,
         status := none, error := some (errMessage e) },
       s, maps, [⟨"generate_from_keys", params⟩])
  | none =>
      ({ success := true, operator_id := msg.operator_id,
         status := some ("View-only wallet created: " ++ wname), error := none },
       { current_operator_id := some msg.operator_id, current_wallet_name := some wname },
       setMapping maps msg.operator_id
         { wallet_name := wname, address := msg.wallet_address, created := now },
       [⟨"generate_from_keys", params⟩])

/-- Model of `_handle_balance_request`. -/
def csHandleBalanceRequest (s : Session) (maps : OperatorMap) (env : RpcEnv)
    (msg : BalanceRequestMessage) :
    BalanceResponseMessage × Session × List RpcCall :=
  let e := ensureWalletOpen s maps env msg.operator_id
  if e.1 then
    let rB := env "get_balance" []
    match resErr rB with
    | some er =>
        ({ success := false, request_id := msg.request_id, balance := 0,
           unlocked_balance := 0, balance_atomic := 0, block_height := 0,
           blocks_to_unlock := 0, error := some (errMessage er) },
         e.2.1, e.2.2 ++ [⟨"refresh", []⟩, ⟨"get_balance", []⟩])
    | none =>
        let bd := resVal rB
        let balanceAtomic := jvGetIOr bd "balance" 0
        let unlockedAtomic := jvGetIOr bd "unlocked_balance" 0
        let rH := env "get_height" []
        ({ success := true, request_id := msg.request_id,
           balance := (balanceAtomic : Rat) / (10 ^ 12 : Rat),
           unlocked_balance := (unlockedAtomic : Rat) / (10 ^ 12 : Rat),
           balance_atomic := balanceAtomic,
           block_height := jvGetIOr (resVal rH) "height" 0,
           blocks_to_unlock := jvGetIOr bd "blocks_to_unlock" 0, error := none },
         e.2.1, e.2.2 ++ [⟨"refresh", []⟩, ⟨"get_balance", []⟩, ⟨"get_height", []⟩])
  else
    ({ success := false, request_id := msg.request_id, balance := 0,
       unlocked_balance := 0, balance_atomic := 0, block_height := 0,
       blocks_to_unlock := 0, error := some "Wallet not found for operator" },
     e.2.1, e.2.2)

/-- Model of `_handle_create_transaction`; the `transfer` params are the
inline dict of the source, with `do_not_relay: True`. -/
def csHandleCreateTransaction (s : Session) (maps : OperatorMap) (env : RpcEnv)
    (msg : CreateTransactionMessage) :
    UnsignedTransactionMessage × Session × List RpcCall :=
  let e := ensureWalletOpen s maps env msg.operator_id
  if e.1 then
    let aAtomic := amountAtomic msg.amount
    let params : JObj :=
      [("destinations", .arr [.obj [("amount", .i aAtomic), ("address", .s msg.destination)]]),
       ("priority", .i msg.priority), ("do_not_relay", .b true),
       ("get_tx_metadata", .b true)]
    let r := env "transfer" params
    match resErr r with
    | some er =>
        ({ success := false, request_id := msg.request_id, unsigned_tx := none,
           tx_key := none, fee := 0, total := 0, destinations := [], change := 0,
           error := some (errMessage er) },
         e.2.1, e.2.2 ++ [⟨"transfer", params⟩])
    | none =>
        let txData := resVal r
        let uts0 := jvGetSOr txData "unsigned_txset" ""
        let uts := if uts0 = "" then jvGetSOr txData "tx_metadata" "" else uts0
        let feeAtomic := jvGetIOr txData "fee" 0
        ({ success := true, request_id := msg.request_id, unsigned_tx := some uts,
           tx_key := some (jvGetSOr txData "tx_key" ""),
           fee := (feeAtomic : Rat) / (10 ^ 12 : Rat),
           total := ((aAtomic + feeAtomic : Int) : Rat) / (10 ^ 12 : Rat),
           destinations := [(msg.destination, msg.amount)], change := 0,
           error := none },
         e.2.1, e.2.2 ++ [⟨"transfer", params⟩])
  else
    ({ success := false, request_id := msg.request_id, unsigned_tx := none,
       tx_key := none, fee := 0, total := 0, destinations := [], change := 0,
       error := some "Wallet not found for operator" },
     e.2.1, e.2.2)

/-- Final response assembly of `_handle_signed_transaction` (`if
tx_hash: ... else ...`; a broadcast hash yields success, otherwise the
recorded error or "Unknown error"). -/
def txResultOf (rid : String) (h : String) (err : Option String) : TransactionResultMessage :=
  if h ≠ "" then
    { success := true, request_id := rid, tx_hash := some h, tx_key := none,
      fee := 0, status := "broadcast", error := none }
  else
    { success := false, request_id := rid, tx_hash := none, tx_key := none,
      fee := 0, status := "broadcast", error := some (err.getD "Unknown error") }

/-- Model of `_handle_signed_transaction`: `submit_transfer` first, then
`relay_tx` as fallback only when `submit_transfer` returned an error. -/
def csHandleSignedTransaction (s : Session) (maps : OperatorMap) (env : RpcEnv)
    (msg : SignedTransactionMessage) :
    TransactionResultMessage × Session × List RpcCall :=
  let e := ensureWalletOpen s maps env msg.operator_id
  if e.1 then
    let p1 : JObj := [("tx_data_hex", .s msg.signed_tx)]
    let r1 := env "submit_transfer" p1
    match resErr r1 with
    | none =>
        (txResultOf msg.request_id (txHashListHead (resVal r1)) none,
         e.2.1, e.2.2 ++ [⟨"submit_transfer", p1⟩])
    | some _ =>
        let p2 : JObj := [("hex", .s msg.signed_tx)]
        let r2 := env "relay_tx" p2
        match resErr r2 with
        | none =>
            (txResultOf msg.request_id (jvGetSOr (resVal r2) "tx_hash" "") none,
             e.2.1, e.2.2 ++ [⟨"submit_transfer", p1⟩, ⟨"relay_tx", p2⟩])
        | some e2 =>
            (txResultOf msg.request_id "" (some (errMessage e2)),
             e.2.1, e.2.2 ++ [⟨"submit_transfer", p1⟩, ⟨"relay_tx", p2⟩])
  else
    ({ success := false, request_id := msg.request_id, tx_hash := none, tx_key := none,
       fee := 0, status := "broadcast", error := some "Wallet not found for operator" },
     e.2.1, e.2.2)

/-!
## Trace predicates and helper lemmas for the hub-side claims
-/

/-- The `do_not_relay` flag of one recorded call (false when absent). -/
def callDoNotRelay (c : RpcCall) : Bool :=
  match jGet c.params "do_not_relay" with
  | some (.b v) => v
  | _ => false

/-- No call in the trace asks the daemon to broadcast. -/
def noRelayMethods (l : List RpcCall) : Bool :=
  l.all (fun c => !(c.method == "relay_tx") && !(c.method == "submit_transfer"))

/-- Every `transfer` call in the trace carries `do_not_relay: True`. -/
def transfersHaveDoNotRelay (l : List RpcCall) : Bool :=
  l.all (fun c => !(c.method == "transfer") || callDoNotRelay c)

/-- Calls made by `_ensure_wallet_open` are only `get_address` or
`open_wallet`. -/
theorem ensure_methods (s : Session) (maps : OperatorMap) (env : RpcEnv) (op : String) :
    ((ensureWalletOpen s maps env op).2.2).all
      (fun c => c.method == "get_address" || c.method == "open_wallet") = true := by
  simp only [ensureWalletOpen, ensureGetAddressFallback]
  repeat' split
  all_goals rfl

/-- A trace of `get_address`/`open_wallet` calls broadcasts nothing and
vacuously satisfies the transfer do-not-relay condition. -/
theorem trace_no_relay_aux (l : List RpcCall)
    (h : l.all (fun c => c.method == "get_address" || c.method == "open_wallet") = true) :
    noRelayMethods l = true ∧ transfersHaveDoNotRelay l = true := by
  simp only [noRelayMethods, transfersHaveDoNotRelay, List.all_eq_true] at h ⊢
  refine ⟨fun c hc => ?_, fun c hc => ?_⟩ <;>
  · have h1 := h c hc
    simp only [Bool.or_eq_true, beq_iff_eq] at h1
    rcases h1 with h1 | h1 <;> simp [h1, callDoNotRelay]

/-- The trace of `_handle_create_transaction` is the ensure trace, plus
at most one `transfer` call which carries `do_not_relay: True`. -/
theorem csCreateTx_trace (s : Session) (maps : OperatorMap) (env : RpcEnv)
    (msg : CreateTransactionMessage) :
    (csHandleCreateTransaction s maps env msg).2.2
        = (ensureWalletOpen s maps env msg.operator_id).2.2 ∨
    ∃ p, (csHandleCreateTransaction s maps env msg).2.2
          = (ensureWalletOpen s maps env msg.operator_id).2.2 ++ [⟨"transfer", p⟩] ∧
         callDoNotRelay ⟨"transfer", p⟩ = true := by
  simp only [csHandleCreateTransaction]
  split
  · split <;> exact Or.inr ⟨_, rfl, by simp [callDoNotRelay, jGet]⟩
  · exact Or.inl rfl

/-- C1: every CreateTx handler issues its `transfer` call with
`do_not_relay` set to true, and issues no `relay_tx` or
`submit_transfer` call at all — both in the LXMF hub
(`MoneroHub._handle_create_tx`) and in the cold-signing session
(`HubColdSigningSession._handle_create_transaction`); relaying can only
happen through the separate signed-submission handlers. -/
theorem createTx_always_do_not_relay (now : Rat) (req : CreateTxRequest)
    (s : Session) (maps : OperatorMap) (env : RpcEnv) (msg : CreateTransactionMessage) :
    transfersHaveDoNotRelay (lxmfHandleCreateTx now req env).2 = true ∧
    noRelayMethods (lxmfHandleCreateTx now req env).2 = true ∧
    transfersHaveDoNotRelay (csHandleCreateTransaction s maps env msg).2.2 = true ∧
    noRelayMethods (csHandleCreateTransaction s maps env msg).2.2 = true := by
  have hens := trace_no_relay_aux _ (ensure_methods s maps env msg.operator_id)
  refine ⟨?_, ?_, ?_, ?_⟩
  · simp [lxmfHandleCreateTx, transfersHaveDoNotRelay, callDoNotRelay, transferParams, jGet]
  · simp [lxmfHandleCreateTx, noRelayMethods, transferParams]
  · rcases csCreateTx_trace s maps env msg with h | ⟨p, h, hp⟩
    · rw [h]; exact hens.2
    · rw [h]
      simp only [transfersHaveDoNotRelay, List.all_append] at *
      simp [hens.2, hp]
  · rcases csCreateTx_trace s maps env msg with h | ⟨p, h, hp⟩
    · rw [h]; exact hens.1
    · rw [h]
      simp only [noRelayMethods, List.all_append] at *
      simp [hens.1]

/-- Updating the durable table makes the new row visible to lookup. -/
theorem mapLookup_set (m : OperatorMap) (k : String) (v : OpMapping) :
    mapLookup (setMapping m k v) k = some v := by
  induction m with
  | nil => simp [setMapping, mapLookup]
  | cons a t ih =>
      obtain ⟨k', v'⟩ := a
      by_cases h : k' = k <;> simp [setMapping, mapLookup, h, ih]

/-- C2: the provisioning path never accepts or forwards a spend key —
the ProvisionWalletMessage wire dict has no spend-key field, the
`generate_from_keys` params dict built by `_handle_provision_wallet`
has no "spendkey" entry, and on RPC success the operator's row
(wallet_name, address, created) is written to the durable
operator→wallet table. -/
theorem provision_viewonly_and_mapping (s : Session) (maps : OperatorMap) (env : RpcEnv)
    (nowI : Int) (now ts : Rat) (msg : ProvisionWalletMessage) :
    jHasKey (msg.pack ts) "spendkey" = false ∧
    jHasKey (msg.pack ts) "spend_key" = false ∧
    ((csHandleProvisionWallet s maps env nowI now msg).2.2.2.all
        (fun c => !(jHasKey c.params "spendkey")) = true) ∧
    (resErr (env "generate_from_keys"
        (provisionParams (provisionWalletName msg.operator_id nowI) msg)) = none →
      mapLookup (csHandleProvisionWallet s maps env nowI now msg).2.2.1 msg.operator_id
        = some { wallet_name := provisionWalletName msg.operator_id nowI,
                 address := msg.wallet_address, created := now }) := by
  refine ⟨?_, ?_, ?_, ?_⟩
  · simp [ProvisionWalletMessage.pack, jHasKey, jGet]
  · simp [ProvisionWalletMessage.pack, jHasKey, jGet]
  · simp only [csHandleProvisionWallet]
    split <;> simp [provisionParams, jHasKey, jGet]
  · intro h
    simp only [csHandleProvisionWallet, h]
    exact mapLookup_set maps msg.operator_id _

/-- Concrete inputs for the provisioning witness. -/
def wProvEnv : RpcEnv := fun _ _ => [("result", .obj [])]

/-- Concrete provisioning request for the witness. -/
def wProvMsg : ProvisionWalletMessage :=
  { operator_id := "alice", view_key := "vk11", wallet_address := "addr11",
    wallet_name := "w11", restore_height := 0 }

/-- Witness for C2: a successful provisioning run writes the mapping
row. -/
theorem provision_viewonly_and_mapping_witness :
    resErr (wProvEnv "generate_from_keys"
        (provisionParams (provisionWalletName "alice" 5) wProvMsg)) = none ∧
    mapLookup (csHandleProvisionWallet ⟨none, none⟩ [] wProvEnv 5 10 wProvMsg).2.2.1 "alice"
      = some { wallet_name := provisionWalletName "alice" 5,
               address := "addr11", created := 10 } :=
  ⟨rfl, (provision_viewonly_and_mapping ⟨none, none⟩ [] wProvEnv 5 10 3 wProvMsg).2.2.2 rfl⟩

/-- Concrete SubmitTx request for the C4 counterexample. -/
def cexSubmitReq : SubmitTxRequest :=
  { request_id := "r9", timestamp := 0, operator_id := "alice", signed_txset := "rawtx" }

/-- Daemon oracle that rejects `submit_transfer` but would accept
`relay_tx`. -/
def cexSubmitEnv : RpcEnv := fun method _ =>
  if method = "submit_transfer" then
    [("error", .obj [("code", .i (-8)), ("message", .s "Transaction rejected")])]
  else if method = "relay_tx" then
    [("result", .obj [("tx_hash", .s "relayedhash")])]
  else
    [("result", .obj [("address", .s "MainAddr")])]

/-- C4 counterexample: at the LXMF hub (`MoneroHub._handle_submit_tx`),
with signed-blob submission rejected and a raw relay that would
succeed, the handler issues only the `submit_transfer` call — no
`relay_tx` fallback — and reports failure, contradicting the claimed
fallback (and the spec scenario demanding success via relay). -/
theorem submitTx_no_fallback_cex :
    (resErr (cexSubmitEnv "submit_transfer" [("tx_data_hex", .s "rawtx")])).isSome = true ∧
    resErr (cexSubmitEnv "relay_tx" [("hex", .s "rawtx")]) = none ∧
    jvGetSOr (resVal (cexSubmitEnv "relay_tx" [("hex", .s "rawtx")])) "tx_hash" "" = "relayedhash" ∧
    ((lxmfHandleSubmitTx 0 cexSubmitReq cexSubmitEnv).2.map RpcCall.method = ["submit_transfer"]) ∧
    (lxmfHandleSubmitTx 0 cexSubmitReq cexSubmitEnv).1.success = false ∧
    (lxmfHandleSubmitTx 0 cexSubmitReq cexSubmitEnv).1.error = some "Transaction rejected" :=
  ⟨rfl, rfl, rfl, rfl, rfl, rfl⟩

/-- C4 (amended): the LXMF hub's SubmitTx handler only ever calls
`submit_transfer` (no relay fallback); the cold-signing session handler
(`_handle_signed_transaction`) tries `submit_transfer` first, falls
back to `relay_tx` exactly when submission returned an error, reports
success with the hash whenever either path yields one, and reports only
the relay (last) error when both fail. -/
theorem submitTx_fallback_behavior (now : Rat) (req : SubmitTxRequest)
    (s : Session) (maps : OperatorMap) (env : RpcEnv) (msg : SignedTransactionMessage)
    (hEnsure : (ensureWalletOpen s maps env msg.operator_id).1 = true) :
    ((lxmfHandleSubmitTx now req env).2.map RpcCall.method = ["submit_transfer"]) ∧
    ((resErr (env "submit_transfer" [("tx_data_hex", .s msg.signed_tx)])).isSome = true →
      (⟨"relay_tx", [("hex", .s msg.signed_tx)]⟩ : RpcCall)
        ∈ (csHandleSignedTransaction s maps env msg).2.2) ∧
    (∀ e1 : Jv, resErr (env "submit_transfer" [("tx_data_hex", .s msg.signed_tx)]) = some e1 →
      resErr (env "relay_tx" [("hex", .s msg.signed_tx)]) = none →
      jvGetSOr (resVal (env "relay_tx" [("hex", .s msg.signed_tx)])) "tx_hash" "" ≠ "" →
      (csHandleSignedTransaction s maps env msg).1.success = true ∧
      (csHandleSignedTransaction s maps env msg).1.tx_hash
        = some (jvGetSOr (resVal (env "relay_tx" [("hex", .s msg.signed_tx)])) "tx_hash" "")) ∧
    (∀ e1 e2 : Jv, resErr (env "submit_transfer" [("tx_data_hex", .s msg.signed_tx)]) = some e1 →
      resErr (env "relay_tx" [("hex", .s msg.signed_tx)]) = some e2 →
      (csHandleSignedTransaction s maps env msg).1.success = false ∧
      (csHandleSignedTransaction s maps env msg).1.error = some (errMessage e2)) ∧
    (resErr (env "submit_transfer" [("tx_data_hex", .s msg.signed_tx)]) = none →
      txHashListHead (resVal (env "submit_transfer" [("tx_data_hex", .s msg.signed_tx)])) ≠ "" →
      (csHandleSignedTransaction s maps env msg).1.success = true ∧
      (csHandleSignedTransaction s maps env msg).1.tx_hash
        = some (txHashListHead (resVal (env "submit_transfer" [("tx_data_hex", .s msg.signed_tx)])))) := by
  refine ⟨?_, ?_, ?_, ?_, ?_⟩
  · simp [lxmfHandleSubmitTx]
  · intro h1
    obtain ⟨e1, he1⟩ := Option.isSome_iff_exists.mp h1
    simp only [csHandleSignedTransaction, hEnsure, if_true, he1]
    split <;> simp
  · intro e1 he1 he2 hh
    simp [csHandleSignedTransaction, hEnsure, he1, he2, txResultOf, hh]
  · intro e1 e2 he1 he2
    simp [csHandleSignedTransaction, hEnsure, he1, he2, txResultOf]
  · intro he1 hh
    simp [csHandleSignedTransaction, hEnsure, he1, txResultOf, hh]

/-- Daemon oracle for the C4 witness: rejects submission, accepts
relay. -/
def wSubmitEnv : RpcEnv := fun method _ =>
  if method = "submit_transfer" then
    [("error", .obj [("code", .i (-8)), ("message", .s "rejected blob")])]
  else if method = "relay_tx" then
    [("result", .obj [("tx_hash", .s "relayhash77")])]
  else
    [("result", .obj [("address", .s "Addr1")])]

/-- Concrete signed-transaction message for the C4 witness. -/
def wSubmitMsg : SignedTransactionMessage :=
  { operator_id := "op7", request_id := "rid7", signed_tx := "blob77" }

/-- Witness for the amended C4: with submission rejected and relay
succeeding, the session reports success with the relayed hash. -/
theorem submitTx_fallback_behavior_witness :
    (ensureWalletOpen ⟨none, none⟩ [] wSubmitEnv wSubmitMsg.operator_id).1 = true ∧
    (csHandleSignedTransaction ⟨none, none⟩ [] wSubmitEnv wSubmitMsg).1.success = true ∧
    (csHandleSignedTransaction ⟨none, none⟩ [] wSubmitEnv wSubmitMsg).1.tx_hash
      = some "relayhash77" := by
  have h := submitTx_fallback_behavior 0 cexSubmitReq ⟨none, none⟩ [] wSubmitEnv wSubmitMsg
    (by decide)
  exact ⟨by decide, (h.2.2.1 _ rfl rfl (by decide)).1, (h.2.2.1 _ rfl rfl (by decide)).2⟩

/-- C9 (amended): for a request whose operator has no row in the
operator→wallet table, for which the daemon reports no open wallet, and
whose session is not already bound to that operator, the balance handler
returns the typed failure response naming "Wallet not found for
operator", leaves the session binding unchanged, and issues only the
`get_address` probe (the handler is a total function — it cannot raise). -/
theorem balance_wallet_not_found (s : Session) (maps : OperatorMap) (env : RpcEnv)
    (msg : BalanceRequestMessage)
    (hBound : ¬(s.current_operator_id = some msg.operator_id ∧
                strTruthy s.current_wallet_name = true))
    (hMap : getWalletForOperator maps msg.operator_id = none)
    (hAddr : addrOk (env "get_address" []) = false) :
    csHandleBalanceRequest s maps env msg
      = ({ success := false, request_id := msg.request_id, balance := 0,
           unlocked_balance := 0, balance_atomic := 0, block_height := 0,
           blocks_to_unlock := 0, error := some "Wallet not found for operator" },
         s, [⟨"get_address", []⟩]) := by
  simp [csHandleBalanceRequest, ensureWalletOpen, ensureGetAddressFallback,
    hBound, hMap, hAddr]

/-- Session already (stale-)bound to "alice" with the fallback wallet
name "default". -/
def cexBalSession : Session :=
  { current_operator_id := some "alice", current_wallet_name := some "default" }

/-- Daemon oracle with no open wallet: `get_address` has no address and
`get_balance` errors. -/
def cexBalEnv : RpcEnv := fun method _ =>
  if method = "get_address" then [("result", .obj [])]
  else if method = "get_balance" then
    [("error", .obj [("code", .i (-13)), ("message", .s "No wallet file")])]
  else [("result", .obj [])]

/-- Concrete balance request for the C9 counterexample. -/
def cexBalMsg : BalanceRequestMessage := { operator_id := "alice", request_id := "breq1" }

/-- C9 counterexample: the operator has no mapping row and the daemon
reports no open wallet, yet — because the session is still bound to that
operator from an earlier fallback — the handler skips the wallet check
and answers with the daemon's `get_balance` error instead of the claimed
"Wallet not found for operator". -/
theorem balance_wallet_not_found_cex :
    getWalletForOperator ([] : OperatorMap) "alice" = none ∧
    addrOk (cexBalEnv "get_address" []) = false ∧
    (csHandleBalanceRequest cexBalSession [] cexBalEnv cexBalMsg).1.success = false ∧
    (csHandleBalanceRequest cexBalSession [] cexBalEnv cexBalMsg).1.error
      = some "No wallet file" ∧
    ¬(csHandleBalanceRequest cexBalSession [] cexBalEnv cexBalMsg).1.error
      = some "Wallet not found for operator" :=
  ⟨rfl, rfl, rfl, rfl, by decide⟩

/-- Daemon oracle for the C9 witness: no error payloads, but also no
address (no wallet open). -/
def wBalEnv : RpcEnv := fun _ _ => [("result", .obj [])]

/-- Concrete balance request for the C9 witness. -/
def wBalMsg : BalanceRequestMessage := { operator_id := "bob", request_id := "breq2" }

/-- Witness for the amended C9 at a fresh (unbound) session. -/
theorem balance_wallet_not_found_witness :
    (¬((⟨none, none⟩ : Session).current_operator_id = some wBalMsg.operator_id ∧
        strTruthy (⟨none, none⟩ : Session).current_wallet_name = true)) ∧
    getWalletForOperator ([] : OperatorMap) wBalMsg.operator_id = none ∧
    addrOk (wBalEnv "get_address" []) = false ∧
    csHandleBalanceRequest ⟨none, none⟩ [] wBalEnv wBalMsg
      = ({ success := false, request_id := "breq2", balance := 0,
           unlocked_balance := 0, balance_atomic := 0, block_height := 0,
           blocks_to_unlock := 0, error := some "Wallet not found for operator" },
         ⟨none, none⟩, [⟨"get_address", []⟩]) :=
  ⟨by decide, rfl, rfl,
    balance_wallet_not_found ⟨none, none⟩ [] wBalEnv wBalMsg (by decide) rfl rfl⟩

/-!
## lxmfmonero.client — request correlator (`_send_request`)

The pending table maps request ids to slots; a slot stores the response
once `_handle_lxmf_message` matches it (the threading Event is
abstracted away, since only the table contents matter to the claims).
`_send_request` is driven by one of four outcomes of its try-body: the
hub identity could not be resolved (returns None), a matching response
arrived (returns it), the wait timed out (returns None), or the body
raised (the exception propagates).  The `finally` block pops the slot on
every one of these paths.
-/

/-- One pending slot: `{"event": ..., "response": ...}` minus the
event. -/
structure PendingSlot where
  response : Option Msg
  deriving DecidableEq, Repr

/-- The client's `self.pending` dict. -/
abbrev PendingMap := List (String × PendingSlot)

/-- Dict lookup on the pending table. -/
def pendingLookup (t : PendingMap) (k : String) : Option PendingSlot :=
  match t with
  | [] => none
  | (k', v) :: rest => if k' = k then some v else pendingLookup rest k

/-- Dict assignment `self.pending[rid] = slot` (overwrite or insert). -/
def pendingSet (t : PendingMap) (k : String) (v : PendingSlot) : PendingMap :=
  match t with
  | [] => [(k, v)]
  | (k', v') :: rest => if k' = k then (k, v) :: rest else (k', v') :: pendingSet rest k v

/-- Dict removal `self.pending.pop(rid, None)`. -/
def pendingPop (t : PendingMap) (k : String) : PendingMap :=
  t.filter (fun e => !(e.1 == k))

/-- Model of `_handle_lxmf_message`: a response whose id has a pending
slot is stored there; an unknown id is logged and ignored. -/
def handleIncoming (t : PendingMap) (resp : Msg) : PendingMap :=
  match pendingLookup t resp.requestId with
  | some _ => pendingSet t resp.requestId ⟨some resp⟩
  | none => t

/-- Outcome of the try-body of `_send_request`. -/
inductive SendOutcome where
  | unresolvable
  | matched (resp : Msg)
  | timedOut
  | raised (e : String)

/-- Model of `_send_request`: registers the slot, runs the body to its
outcome, and pops the slot in the `finally` block on every path.  The
`matched` case first stores the response the way the inbound handler
does, then reads it back as the code does. -/
def sendRequest (t0 : PendingMap) (rid : String) (o : SendOutcome) :
    Except String (Option Msg) × PendingMap :=
  let t1 := pendingSet t0 rid ⟨none⟩
  match o with
  | .unresolvable => (.ok none, pendingPop t1 rid)
  | .matched resp =>
      let t2 := pendingSet t1 rid ⟨some resp⟩
      ((.ok ((pendingLookup t2 rid).bind PendingSlot.response)), pendingPop t2 rid)
  | .timedOut => (.ok none, pendingPop t1 rid)
  | .raised e => (.error e, pendingPop t1 rid)

/-- Popping a key just set equals popping it from the original table. -/
theorem pendingPop_set (t : PendingMap) (k : String) (v : PendingSlot) :
    pendingPop (pendingSet t k v) k = pendingPop t k := by
  induction t with
  | nil => simp [pendingSet, pendingPop]
  | cons a rest ih =>
      obtain ⟨k', v'⟩ := a
      by_cases h : k' = k <;> simp [pendingSet, pendingPop, h] at ih ⊢ <;> simp [ih]

/-- A popped key is gone from the table. -/
theorem pendingLookup_pop (t : PendingMap) (k : String) :
    pendingLookup (pendingPop t k) k = none := by
  induction t with
  | nil => rfl
  | cons a rest ih =>
      obtain ⟨k', v'⟩ := a
      by_cases h : k' = k
      · simpa [pendingPop, List.filter_cons, h] using ih
      · have hb : (k' == k) = false := by simp [h]
        simp only [pendingPop, List.filter_cons, hb, Bool.not_false, if_true]
        simpa [pendingLookup, h, pendingPop] using ih

/-- C8: on every path of `_send_request` — unresolvable hub identity,
matched response, timeout, or exception — the slot for the request's
correlation id is removed by the time the call returns: the final table
is exactly the initial table without that id (so no other slot is
touched either), and the id no longer resolves. -/
theorem sendRequest_cleans_pending (t0 : PendingMap) (rid : String) (o : SendOutcome) :
    (sendRequest t0 rid o).2 = pendingPop t0 rid ∧
    pendingLookup (sendRequest t0 rid o).2 rid = none := by
  have hpop : (sendRequest t0 rid o).2 = pendingPop t0 rid := by
    cases o <;> simp [sendRequest, pendingPop_set]
  exact ⟨hpop, by rw [hpop]; exact pendingLookup_pop t0 rid⟩

/-!
## lxmfmonero.client — `send_transaction` workflow (steps 1-6)

Each high-level step (hub request or local wallet-rpc call) returns a
result dict; those dicts are modelled as records, supplied by a
`WorkflowEnv` oracle (each step runs at most once per workflow).  The
workflow records the sequence of steps it attempts.
-/

/-- Python f-string rendering of an optional error (`None` prints as
"None"). -/
def pyStrOpt : Option String → String
  | none => "None"
  | some s => s

/-- Result dict of `export_outputs`. -/
structure ExportOutputsOpResult where
  success : Bool
  outputs_data_hex : String
  error : Option String
  deriving DecidableEq, Repr

/-- Result dict of `import_outputs_locally`. -/
structure ImportOutputsOpResult where
  success : Bool
  num_imported : Int
  error : Option String
  deriving DecidableEq, Repr

/-- Result dict of `create_transaction`. -/
structure CreateTxOpResult where
  success : Bool
  unsigned_txset : String
  fee : Rat
  amount : Rat
  error : Option String
  deriving DecidableEq, Repr

/-- Result dict of `sign_transaction_locally`. -/
structure SignOpResult where
  success : Bool
  signed_txset : String
  error : Option String
  deriving DecidableEq, Repr

/-- Result dict of `submit_transaction`. -/
structure SubmitOpResult where
  success : Bool
  tx_hash : String
  error : Option String
  deriving DecidableEq, Repr

/-- Result dict of `export_key_images_locally`. -/
structure KeyImagesOpResult where
  success : Bool
  signed_key_images : List KeyImage
  error : Option String
  deriving DecidableEq, Repr

/-- Oracle providing each step's result for one workflow run. -/
structure WorkflowEnv where
  exportOutputs : ExportOutputsOpResult
  importOutputsLocally : ImportOutputsOpResult
  createTransaction : CreateTxOpResult
  signTransactionLocally : SignOpResult
  submitTransaction : SubmitOpResult
  exportKeyImagesLocally : KeyImagesOpResult

/-- The steps `send_transaction` can attempt, in order. -/
inductive WfAct where
  | hubExportOutputs
  | localImportOutputs
  | hubCreateTx
  | localSign
  | hubSubmitTx
  | localExportKeyImages
  | hubImportKeyImages
  deriving DecidableEq, Repr

/-- Result dict of `send_transaction` (failure dicts carry only
success/error). -/
structure SendTxResult where
  success : Bool
  tx_hash : Option String
  fee : Option Rat
  amount : Option Rat
  error : Option String
  deriving DecidableEq, Repr

/-- Model of `MoneroClient.send_transaction`: the strict 6-step
sequence.  Note the source performs no validation of `amount` — the
first thing it does is step 1.  Step 6 is best-effort: the hub
key-image import runs only when the local export succeeded, and
neither affects the returned (already successful) result. -/
def sendTransaction (env : WorkflowEnv) (destination : String) (amount : Rat)
    (priority : Int) : SendTxResult × List WfAct :=
  let r1 := env.exportOutputs
  if !r1.success then
    ({ success := false, tx_hash := none, fee := none, amount := none,
       error := some ("Export outputs failed: " ++ pyStrOpt r1.error) },
     [.hubExportOutputs])
  else
    let r2 := env.importOutputsLocally
    if !r2.success then
      ({ success := false, tx_hash := none, fee := none, amount := none,
         error := some ("Import outputs failed: " ++ pyStrOpt r2.error) },
       [.hubExportOutputs, .localImportOutputs])
    else
      let r3 := env.createTransaction
      if !r3.success then
        ({ success := false, tx_hash := none, fee := none, amount := none,
           error := some ("Create tx failed: " ++ pyStrOpt r3.error) },
         [.hubExportOutputs, .localImportOutputs, .hubCreateTx])
      else
        let r4 := env.signTransactionLocally
        if !r4.success then
          ({ success := false, tx_hash := none, fee := none, amount := none,
             error := some ("Sign tx failed: " ++ pyStrOpt r4.error) },
           [.hubExportOutputs, .localImportOutputs, .hubCreateTx, .localSign])
        else
          let r5 := env.submitTransaction
          if !r5.success then
            ({ success := false, tx_hash := none, fee := none, amount := none,
               error := some ("Submit tx failed: " ++ pyStrOpt r5.error) },
             [.hubExportOutputs, .localImportOutputs, .hubCreateTx, .localSign,
              .hubSubmitTx])
          else
            let r6 := env.exportKeyImagesLocally
            let res : SendTxResult :=
              { success := true, tx_hash := some r5.tx_hash, fee := some r3.fee,
                amount := some amount, error := none }
            if r6.success then
              (res, [.hubExportOutputs, .localImportOutputs, .hubCreateTx, .localSign,
                     .hubSubmitTx, .localExportKeyImages, .hubImportKeyImages])
            else
              (res, [.hubExportOutputs, .localImportOutputs, .hubCreateTx, .localSign,
                     .hubSubmitTx, .localExportKeyImages])

/-- C6: whenever steps 1-4 succeed and step 5 (SubmitTx) returns a
non-success result, `send_transaction` returns a failure naming
"Submit tx failed" (with the submit error appended) and neither the
local key-image export nor the hub key-image import of step 6 is
attempted. -/
theorem submit_failure_skips_key_images (env : WorkflowEnv) (d : String) (a : Rat)
    (p : Int)
    (h1 : env.exportOutputs.success = true)
    (h2 : env.importOutputsLocally.success = true)
    (h3 : env.createTransaction.success = true)
    (h4 : env.signTransactionLocally.success = true)
    (h5 : env.submitTransaction.success = false) :
    (sendTransaction env d a p).1.success = false ∧
    (sendTransaction env d a p).1.error
      = some ("Submit tx failed: " ++ pyStrOpt env.submitTransaction.error) ∧
    (sendTransaction env d a p).2
      = [.hubExportOutputs, .localImportOutputs, .hubCreateTx, .localSign, .hubSubmitTx] ∧
    WfAct.localExportKeyImages ∉ (sendTransaction env d a p).2 ∧
    WfAct.hubImportKeyImages ∉ (sendTransaction env d a p).2 := by
  simp [sendTransaction, h1, h2, h3, h4, h5]

/-- Workflow oracle for the C6 witness: steps 1-4 succeed, submission
fails. -/
def wWfEnvSubmitFail : WorkflowEnv :=
  { exportOutputs := { success := true, outputs_data_hex := "0abc", error := none }
    importOutputsLocally := { success := true, num_imported := 3, error := none }
    createTransaction := { success := true, unsigned_txset := "unsig", fee := 1/50000,
                           amount := 1/1000, error := none }
    signTransactionLocally := { success := true, signed_txset := "sig", error := none }
    submitTransaction := { success := false, tx_hash := "", error := some "daemon says no" }
    exportKeyImagesLocally := { success := true, signed_key_images := [], error := none } }

/-- Witness for C6 at a concrete failing submission. -/
theorem submit_failure_skips_key_images_witness :
    wWfEnvSubmitFail.submitTransaction.success = false ∧
    (sendTransaction wWfEnvSubmitFail "D" 1 1).1.error
      = some "Submit tx failed: daemon says no" ∧
    WfAct.hubImportKeyImages ∉ (sendTransaction wWfEnvSubmitFail "D" 1 1).2 := by
  have h := submit_failure_skips_key_images wWfEnvSubmitFail "D" 1 1 rfl rfl rfl rfl rfl
  exact ⟨rfl, by simpa using h.2.1, h.2.2.2.2⟩

/-- Workflow oracle where every step succeeds. -/
def wWfEnvAllOk : WorkflowEnv :=
  { exportOutputs := { success := true, outputs_data_hex := "0abc", error := none }
    importOutputsLocally := { success := true, num_imported := 3, error := none }
    createTransaction := { success := true, unsigned_txset := "unsig", fee := 1/50000,
                           amount := 1/1000, error := none }
    signTransactionLocally := { success := true, signed_txset := "sig", error := none }
    submitTransaction := { success := true, tx_hash := "hash1", error := none }
    exportKeyImagesLocally := { success := true, signed_key_images := [], error := none } }

/-- C7 counterexample: `send_transaction` called with the non-positive
amount -1 does not fail and does not avoid the hub — its very first
action is the hub ExportOutputs request of step 1, and it completes with
success carrying amount -1.  No amount validation happens in
`send_transaction`. -/
theorem amount_validation_cex :
    (sendTransaction wWfEnvAllOk "Dest" (-1) 1).2.head? = some .hubExportOutputs ∧
    (sendTransaction wWfEnvAllOk "Dest" (-1) 1).1.success = true ∧
    (sendTransaction wWfEnvAllOk "Dest" (-1) 1).1.amount = some (-1) := by
  refine ⟨rfl, rfl, by decide⟩

/-- Amount check of the TUI send form (`tui.py`,
`_validate_and_confirm`): a `float(...)` parse failure or a non-positive
value is rejected ("Invalid amount"), and a value above the unlocked
balance is rejected ("Insufficient balance").  `parsed` abstracts the
outcome of `float(self.state.send_amount)`. -/
def tuiAmountAccepted (parsed : Option Rat) (unlocked : Rat) : Bool :=
  match parsed with
  | none => false
  | some a => if a ≤ 0 then false else decide (a ≤ unlocked)

/-- C7 (amended): `send_transaction` itself performs no amount
validation — for every amount (positive or not) its first action is the
step-1 hub ExportOutputs request; the positive-parsable amount check
exists only in the TUI front-end, which accepts an amount only when it
parsed and is positive (and within the unlocked balance). -/
theorem send_transaction_no_amount_validation (env : WorkflowEnv) (d : String)
    (a : Rat) (p : Int) (parsed : Option Rat) (unlocked : Rat) :
    (sendTransaction env d a p).2.head? = some .hubExportOutputs ∧
    (tuiAmountAccepted parsed unlocked = true →
      ∃ v, parsed = some v ∧ 0 < v ∧ v ≤ unlocked) := by
  constructor
  · simp only [sendTransaction]
    repeat' split
    all_goals rfl
  · intro h
    cases parsed with
    | none => simp [tuiAmountAccepted] at h
    | some v =>
        by_cases hv : v ≤ 0
        · simp [tuiAmountAccepted, hv] at h
        · refine ⟨v, rfl, lt_of_not_le hv, ?_⟩
          simpa [tuiAmountAccepted, hv] using h

/-- Witness for the amended C7: with a positive parsed amount the TUI
check passes, and the workflow's first action is always step 1. -/
theorem send_transaction_no_amount_validation_witness :
    tuiAmountAccepted (some 2) 5 = true ∧
    ((sendTransaction wWfEnvAllOk "Dest" 2 1).2.head? = some .hubExportOutputs ∧
     (tuiAmountAccepted (some 2) 5 = true →
       ∃ v, (some (2 : Rat)) = some v ∧ 0 < v ∧ v ≤ 5)) :=
  ⟨by decide, send_transaction_no_amount_validation wWfEnvAllOk "Dest" 2 1 (some 2) 5⟩
